import Mathlib

/-!
Verification of the jupyter-shell client (`main.go`) against its
natural-language specification.

The Go program is shallowly embedded:

* JSON values that can appear inside a wire message are `JValue`
  (flat: the protocol only ever inspects string elements).
* A wire message (`Message` in Go, `[]interface{}`) is `List JValue`.
* The websocket connection owned by the client is `ConnState`: a closed
  flag plus the list of messages successfully transmitted over it.
  A write on a closed connection fails and transmits nothing (the
  behaviour of `gorilla/websocket` after `Close`).
* Operations that can dereference a nil connection return `Outcome`,
  whose `panics` constructor marks a nil-pointer dereference.
* `main`'s control flow (input loop, single-shot send, teardown) is
  embedded separately as a trace of events, with an oracle deciding
  which write attempts fail at the transport level.
-/

namespace JupyterShell

/-- A JSON value as it can appear as an element of a terminal wire
message.  The protocol code only ever type-asserts string elements, so a
flat value type suffices; non-string constructors stand for every
payload the assertion rejects. -/
inductive JValue where
  | str (s : String)
  | num (n : Int)
  | bool (b : Bool)
  | null
deriving DecidableEq, Repr

/-- `strings.HasSuffix s suffix`: `s` ends with `suffix`. -/
def hasSuffix (s suffix : String) : Bool :=
  suffix.data.isSuffixOf s.data

/-- `strings.HasSuffix`-based newline normalization in `SendCommand`
(`main.go` lines 160-163): append `"\n"` unless the command already ends
with it. -/
def ensureNewline (cmd : String) : String :=
  if ¬ hasSuffix cmd "\n" then cmd ++ "\n" else cmd

/-- The wire message built by `SendCommand` (`main.go` line 165):
`["stdin", cmd]` after newline normalization. -/
def wireOf (cmd : String) : List JValue :=
  [JValue.str "stdin", JValue.str (ensureNewline cmd)]

/-- State of the websocket connection: whether it has been closed, and
the messages successfully transmitted over it (in order).  `WriteMessage`
on a closed connection returns an error and transmits nothing. -/
structure ConnState where
  closed : Bool
  sent : List (List JValue)
deriving DecidableEq, Repr

/-- The `JupyterClient` struct (`main.go` lines 23-28).  `conn` is
`none` while no websocket connection has been established (Go nil). -/
structure JupyterClient where
  baseURL : String
  token : String
  terminalID : String
  conn : Option ConnState
deriving DecidableEq, Repr

/-- Result of an operation that in Go could dereference a nil pointer:
`panics` marks the nil dereference, `ok` carries the result. -/
inductive Outcome (α : Type) where
  | panics
  | ok (a : α)
deriving DecidableEq, Repr

/-- `strings.TrimSuffix s "/"`: remove one trailing slash if present. -/
def trimSlash (s : String) : String :=
  if hasSuffix s "/" then String.mk s.data.dropLast else s

/-- `NewJupyterClient` (`main.go` lines 31-36): trims a trailing slash
from the base URL, stores the token; `terminalID` and `conn` take Go
zero values (empty string, nil). -/
def NewJupyterClient (baseURL token : String) : JupyterClient :=
  { baseURL := trimSlash baseURL
    token := token
    terminalID := ""
    conn := none }

/-- `SendCommand` (`main.go` lines 159-172): normalize the newline,
build `["stdin", cmd]`, write it on `c.conn`.  Dereferencing a nil
connection panics; the returned `Bool` is `true` when the write
succeeded (no error). -/
def SendCommand (c : JupyterClient) (cmd : String) : Outcome (Bool × JupyterClient) :=
  match c.conn with
  | none => Outcome.panics
  | some st =>
      if st.closed then
        Outcome.ok (false, c)
      else
        Outcome.ok (true, { c with conn := some { st with sent := st.sent ++ [wireOf cmd] } })

/-- `Close` (`main.go` lines 175-185): if the connection is non-nil,
send the exit command (error ignored), sleep, and close the websocket;
otherwise return nil.  The returned `Bool` is `true` when `conn.Close()`
returned an error (the underlying connection was already closed). -/
def Close (c : JupyterClient) : Outcome (Bool × JupyterClient) :=
  match c.conn with
  | none => Outcome.ok (false, c)
  | some _ =>
      match SendCommand c "exit" with
      | Outcome.panics => Outcome.panics
      | Outcome.ok (_, c1) =>
          match c1.conn with
          | none => Outcome.panics
          | some st => Outcome.ok (st.closed, { c1 with conn := some { st with closed := true } })

/-- An HTTP response as `CreateTerminal` observes it: status code and
text, raw body (read only on the error path), and the result of
`json.NewDecoder(resp.Body).Decode(&result)` on the success path
(`none` stands for a decode error, `some` for the decoded
`map[string]interface{}`, modelled as an association list). -/
structure HttpResponse where
  statusCode : Nat
  status : String
  body : String
  decoded : Option (List (String × JValue))
deriving DecidableEq, Repr

/-- Go map lookup `result["name"]` on the decoded object. -/
def lookupField (k : String) : List (String × JValue) → Option JValue
  | [] => none
  | (k1, v) :: rest => if k1 = k then some v else lookupField k rest

/-- The possible returns of `CreateTerminal`, mirroring its error
values. -/
inductive CreateResult where
  | httpErr (status : String) (body : String)
  | decodeErr
  | missingName
  | ok
deriving DecidableEq, Repr

/-- `CreateTerminal` (`main.go` lines 39-78), for a run in which the
POST to `{baseURL}/api/terminals` returned `resp`: any status other
than 200/201 is an error carrying status and body; a body that fails to
decode is an error; a decoded body whose `name` field is absent or not
a string is the "terminal ID not found in response" error; otherwise
`c.terminalID` is set to the `name` field. -/
def CreateTerminal (c : JupyterClient) (resp : HttpResponse) :
    CreateResult × JupyterClient :=
  if resp.statusCode ≠ 200 ∧ resp.statusCode ≠ 201 then
    (CreateResult.httpErr resp.status resp.body, c)
  else
    match resp.decoded with
    | none => (CreateResult.decodeErr, c)
    | some obj =>
        match lookupField "name" obj with
        | some (JValue.str name) => (CreateResult.ok, { c with terminalID := name })
        | _ => (CreateResult.missingName, c)

/-- A parsed URL as `Connect` manipulates it: scheme, authority, path,
and the query parameters (`url.Values`, modelled as an association
list). -/
structure URL where
  scheme : String
  host : String
  path : String
  query : List (String × String)
deriving DecidableEq, Repr

/-- `url.Values.Set`: replace every existing value for the key with the
single given value. -/
def setQueryParam (q : List (String × String)) (k v : String) :
    List (String × String) :=
  q.filter (fun p => p.1 ≠ k) ++ [(k, v)]

/-- The URL-derivation part of `Connect` (`main.go` lines 81-103), for
`u` the parse of `c.baseURL`: rewrite scheme `https` to `wss` and any
other scheme to `ws`, set the path to
`/terminals/websocket/{terminalID}`, and set the `token` query
parameter when the token is non-empty. -/
def ConnectURL (u : URL) (terminalID token : String) : URL :=
  let u1 : URL :=
    { u with
        scheme := if u.scheme = "https" then "wss" else "ws"
        path := "/terminals/websocket/" ++ terminalID }
  if token ≠ "" then { u1 with query := setQueryParam u1.query "token" token } else u1

/-- One scripted result of `c.conn.ReadMessage()` in the receive loop:
a transport read error, or a frame whose `json.Unmarshal` either fails
(`rok none`) or yields a decoded message (`rok (some m)`). -/
inductive RecvEv where
  | rerr
  | rok (m : Option (List JValue))
deriving DecidableEq, Repr

/-- `ReadMessages` (`main.go` lines 119-156) run against a scripted
connection: returns the text printed to the local output stream and the
number of receives issued on the connection.  A receive on an exhausted
script behaves as a read error (the scripted connection is closed), so
it still counts as one receive and breaks the loop.  A frame that fails
to unmarshal, a message with fewer than two elements, a non-string
type tag, and any tag other than `stdout`/`setup`/`disconnect` are all
skipped; `stdout` with a string payload is printed verbatim; `setup`
only logs; `disconnect` returns from the loop. -/
def ReadMessages : List RecvEv → String × Nat
  | [] => ("", 1)
  | RecvEv.rerr :: _ => ("", 1)
  | RecvEv.rok none :: rest =>
      let r := ReadMessages rest
      (r.1, r.2 + 1)
  | RecvEv.rok (some m) :: rest =>
      if m.length < 2 then
        let r := ReadMessages rest
        (r.1, r.2 + 1)
      else
        match m[0]? with
        | some (JValue.str t) =>
            if t = "stdout" then
              match m[1]? with
              | some (JValue.str s) =>
                  let r := ReadMessages rest
                  (s ++ r.1, r.2 + 1)
              | _ =>
                  let r := ReadMessages rest
                  (r.1, r.2 + 1)
            else if t = "setup" then
              let r := ReadMessages rest
              (r.1, r.2 + 1)
            else if t = "disconnect" then ("", 1)
            else
              let r := ReadMessages rest
              (r.1, r.2 + 1)
        | _ =>
            let r := ReadMessages rest
            (r.1, r.2 + 1)

/-- The session-resolution step of `main` (`main.go` lines 236-243):
either the process aborts (`log.Fatalf` on a provisioning error) or it
proceeds with the updated client. -/
inductive ResolveOut where
  | fatal
  | proceed (c : JupyterClient)
deriving DecidableEq, Repr

/-- `main`'s create-or-attach step (`main.go` lines 236-243): when the
`-term` flag is non-empty, assign it to `terminalID` and skip
`CreateTerminal`; otherwise call `CreateTerminal` (with `resp` the
response its POST observed) and abort on any error.  The `Bool` records
whether `CreateTerminal` was invoked. -/
def resolveTerminal (c : JupyterClient) (termID : String) (resp : HttpResponse) :
    Bool × ResolveOut :=
  if termID ≠ "" then
    (false, ResolveOut.proceed { c with terminalID := termID })
  else
    match CreateTerminal c resp with
    | (CreateResult.ok, c1) => (true, ResolveOut.proceed c1)
    | _ => (true, ResolveOut.fatal)

/-- One observable event of `main`'s input loop and teardown:
`readLine` is one line consumed from local standard input, `send` is a
`SendCommand` issued by the input loop or single-shot branch (with the
wire message and whether the write succeeded), `fatalExit` is
`log.Fatalf` (immediate process exit: deferred functions, hence the
deferred `Close`, do not run), `exitSend` is the `SendCommand "exit"`
issued by `Close` during teardown (error ignored), and `close` is
`conn.Close()`. -/
inductive Ev where
  | readLine
  | send (msg : List JValue) (ok : Bool)
  | fatalExit
  | exitSend (ok : Bool)
  | close
deriving DecidableEq, Repr

/-- The loop of `InteractiveShell` (`main.go` lines 198-221) with the
write failures scripted by `oracle` (the `idx`-th write attempt on the
connection succeeds iff `oracle idx`): read a line; on end of input or
the literal `exit`, break; otherwise send the line and break if the
send failed.  Returns the events and the next write-attempt index. -/
def InteractiveShell (oracle : Nat → Bool) : List String → Nat → List Ev × Nat
  | [], idx => ([], idx)
  | line :: rest, idx =>
      if line = "exit" then ([Ev.readLine], idx)
      else if oracle idx then
        let r := InteractiveShell oracle rest (idx + 1)
        (Ev.readLine :: Ev.send (wireOf line) true :: r.1, r.2)
      else ([Ev.readLine, Ev.send (wireOf line) false], idx + 1)

/-- The mode-selection part of `main` (`main.go` lines 254-266): with
trailing positional arguments, join them with single spaces and send
once, aborting via `log.Fatalf` on a send error; otherwise run the
interactive shell.  Returns the events, the next write-attempt index,
and whether `main` proceeds normally (`false` after `log.Fatalf`, which
skips the deferred teardown). -/
def inputPhase (args stdin : List String) (oracle : Nat → Bool) :
    List Ev × Nat × Bool :=
  if args ≠ [] then
    let p := wireOf (String.intercalate " " args)
    if oracle 0 then ([Ev.send p true], 1, true)
    else ([Ev.send p false, Ev.fatalExit], 1, false)
  else
    let r := InteractiveShell oracle stdin 0
    (r.1, r.2, true)

/-- The trace of the deferred `Close` (`main.go` lines 175-185) run at
the end of `main` with the connection still open: one `SendCommand
"exit"` whose error is ignored, then `conn.Close()`. -/
def teardownEvs (oracle : Nat → Bool) (idx : Nat) : List Ev :=
  [Ev.exitSend (oracle idx), Ev.close]

/-- `main` after a successful connect (`main.go` lines 249-266): run
the input phase, then — unless `log.Fatalf` already terminated the
process — the deferred `Close` performs teardown. -/
def mainBody (args stdin : List String) (oracle : Nat → Bool) : List Ev :=
  let r := inputPhase args stdin oracle
  if r.2.2 then r.1 ++ teardownEvs oracle r.2.1 else r.1

/-- The wire messages of the `send` events of a trace, in order. -/
def sendPayloads : List Ev → List (List JValue)
  | [] => []
  | Ev.send m _ :: rest => m :: sendPayloads rest
  | _ :: rest => sendPayloads rest

/-- The scripted inbound sequence of the spec's relay test:
`["setup"]`, `["stdout","a\n"]`, `["stdout","b\n"]`, `["disconnect"]`. -/
def c3Script : List RecvEv :=
  [RecvEv.rok (some [JValue.str "setup"]),
   RecvEv.rok (some [JValue.str "stdout", JValue.str "a\n"]),
   RecvEv.rok (some [JValue.str "stdout", JValue.str "b\n"]),
   RecvEv.rok (some [JValue.str "disconnect"])]

/-- C2: `Close` never panics; on a client with no connection it is a
no-op returning no error; and a second `Close` after a first one
returns the client state unchanged — in particular the transmitted
message list is unchanged, so the exit command is not delivered a
second time (the write is attempted on the now-closed connection and
fails).  The error returned by the second close is `conn.Close()`'s
already-closed error, i.e. `true` exactly when a connection exists. -/
theorem c2_close_idempotent (c : JupyterClient) :
    Close c ≠ Outcome.panics
    ∧ (c.conn = none → Close c = Outcome.ok (false, c))
    ∧ (∀ e1 c1, Close c = Outcome.ok (e1, c1) →
        Close c1 = Outcome.ok (c1.conn.isSome, c1)) := by
  obtain ⟨b, t, tid, conn⟩ := c
  cases conn with
  | none =>
      refine ⟨?_, ?_, ?_⟩
      · simp [Close]
      · intro _; simp [Close]
      · intro e1 c1 h
        simp only [Close] at h
        obtain ⟨he, hc⟩ := Outcome.ok.inj h |> Prod.mk.inj
        subst hc
        simp [Close]
  | some st =>
      obtain ⟨closed, sent⟩ := st
      refine ⟨?_, ?_, ?_⟩
      · cases closed <;> simp [Close, SendCommand]
      · intro h; simp at h
      · intro e1 c1 h
        cases closed <;> simp [Close, SendCommand] at h <;>
          obtain ⟨he, hc⟩ := h <;> subst hc <;> simp [Close, SendCommand]

/-- C2 witness: on a concrete already-closed session (the state left by
a first `Close`), a second `Close` does not panic, returns the
already-closed error, and leaves the transmitted messages unchanged. -/
theorem c2_close_idempotent_witness :
    Close { baseURL := "http://h", token := "", terminalID := "t1",
            conn := some { closed := true,
                           sent := [[JValue.str "stdin", JValue.str "exit\n"]] } } =
      Outcome.ok (true,
        { baseURL := "http://h", token := "", terminalID := "t1",
          conn := some { closed := true,
                         sent := [[JValue.str "stdin", JValue.str "exit\n"]] } }) :=
  (c2_close_idempotent
    { baseURL := "http://h", token := "", terminalID := "t1",
      conn := some { closed := false, sent := [] } }).2.2 false
    { baseURL := "http://h", token := "", terminalID := "t1",
      conn := some { closed := true,
                     sent := [[JValue.str "stdin", JValue.str "exit\n"]] } }
    (by decide)

/-- C4: for every command, `SendCommand` on an open connection
transmits exactly the message `["stdin", cmd]` with a newline appended
iff the command does not already end in one; in particular `"ls"` is
transmitted as `"ls\n"` and `"ls\n"` is not doubled. -/
theorem c4_send_normalizes (b t tid cmd : String) (sent : List (List JValue)) :
    SendCommand { baseURL := b, token := t, terminalID := tid,
                  conn := some { closed := false, sent := sent } } cmd =
      Outcome.ok (true,
        { baseURL := b, token := t, terminalID := tid,
          conn := some { closed := false,
                         sent := sent ++
                           [[JValue.str "stdin",
                             JValue.str (if hasSuffix cmd "\n" then cmd else cmd ++ "\n")]] } })
    ∧ ensureNewline "ls" = "ls\n"
    ∧ ensureNewline "ls\n" = "ls\n" := by
  refine ⟨?_, by decide, by decide⟩
  by_cases h : hasSuffix cmd "\n" <;>
    simp [SendCommand, wireOf, ensureNewline, h]

/-- C5: a frame that fails to decode, and a decoded message with fewer
than two elements, produce no output, do not terminate the loop, and
the loop continues with the next receive. -/
theorem c5_malformed_dropped (m : List JValue) (rest : List RecvEv)
    (h : m.length < 2) :
    ReadMessages (RecvEv.rok (some m) :: rest) =
      ((ReadMessages rest).1, (ReadMessages rest).2 + 1)
    ∧ ReadMessages (RecvEv.rok none :: rest) =
      ((ReadMessages rest).1, (ReadMessages rest).2 + 1) := by
  constructor
  · simp [ReadMessages, h]
  · simp [ReadMessages]

/-- C5 witness: a one-element `["disconnect"]` frame and an
undecodable frame are both dropped and the loop issues the next
receive. -/
theorem c5_malformed_dropped_witness :
    ReadMessages [RecvEv.rok (some [JValue.str "disconnect"])] =
      ((ReadMessages []).1, (ReadMessages []).2 + 1)
    ∧ ReadMessages [RecvEv.rok none] =
      ((ReadMessages []).1, (ReadMessages []).2 + 1) :=
  c5_malformed_dropped [JValue.str "disconnect"] [] (by decide)

/-- C3 counterexample: on the scripted sequence the loop does write
exactly `"a\nb\n"`, but it does not terminate at the fourth message:
the one-element `["disconnect"]` frame is dropped by the
fewer-than-two-elements check, a fifth receive is issued, and a fifth
frame, were one present, would still be processed. -/
theorem c3_counterexample :
    ReadMessages c3Script ≠ ("a\nb\n", 4)
    ∧ ReadMessages c3Script = ("a\nb\n", 5)
    ∧ ReadMessages
        (c3Script ++ [RecvEv.rok (some [JValue.str "stdout", JValue.str "c\n"])]) =
        ("a\nb\nc\n", 6) := by decide

/-- C3 amended: the loop writes exactly `"a\nb\n"` on the scripted
sequence, but the one-element `["disconnect"]` frame is dropped as
malformed and one further receive is issued; the loop terminates at the
fourth message with no further receive only when the disconnect frame
has at least two elements. -/
theorem c3_amended :
    ReadMessages c3Script = ("a\nb\n", 5)
    ∧ ReadMessages
        [RecvEv.rok (some [JValue.str "setup"]),
         RecvEv.rok (some [JValue.str "stdout", JValue.str "a\n"]),
         RecvEv.rok (some [JValue.str "stdout", JValue.str "b\n"]),
         RecvEv.rok (some [JValue.str "disconnect", JValue.null])] =
        ("a\nb\n", 4) := by decide

/-- C6: `CreateTerminal` treats exactly HTTP 200 and 201 as success.
Any other status yields an error carrying the response status and body,
with the client (in particular `terminalID`) unchanged; a success
status with an undecodable body is an error with the client unchanged;
a success status whose decoded body lacks a string-valued `name` field
is the missing-identifier error with the client unchanged; a success
status with `name` present sets `terminalID` to it. -/
theorem c6_create_terminal (c : JupyterClient) (resp : HttpResponse) :
    (¬ (resp.statusCode = 200 ∨ resp.statusCode = 201) →
      CreateTerminal c resp = (CreateResult.httpErr resp.status resp.body, c))
    ∧ ((resp.statusCode = 200 ∨ resp.statusCode = 201) → resp.decoded = none →
        CreateTerminal c resp = (CreateResult.decodeErr, c))
    ∧ ((resp.statusCode = 200 ∨ resp.statusCode = 201) →
        ∀ obj, resp.decoded = some obj →
          (∀ s, lookupField "name" obj ≠ some (JValue.str s)) →
          CreateTerminal c resp = (CreateResult.missingName, c))
    ∧ ((resp.statusCode = 200 ∨ resp.statusCode = 201) →
        ∀ obj s, resp.decoded = some obj →
          lookupField "name" obj = some (JValue.str s) →
          CreateTerminal c resp = (CreateResult.ok, { c with terminalID := s })) := by
  refine ⟨?_, ?_, ?_, ?_⟩
  · intro h
    have h2 : resp.statusCode ≠ 200 ∧ resp.statusCode ≠ 201 := by
      constructor <;> intro he <;> exact h (by simp [he])
    simp [CreateTerminal, h2]
  · intro h hd
    have h2 : ¬ (resp.statusCode ≠ 200 ∧ resp.statusCode ≠ 201) := by
      rcases h with h | h <;> simp [h]
    simp [CreateTerminal, h2, hd]
  · intro h obj hd hn
    have h2 : ¬ (resp.statusCode ≠ 200 ∧ resp.statusCode ≠ 201) := by
      rcases h with h | h <;> simp [h]
    cases hv : lookupField "name" obj with
    | none => simp [CreateTerminal, h2, hd, hv]
    | some v =>
        cases v with
        | str s => exact absurd hv (hn s)
        | num n => simp [CreateTerminal, h2, hd, hv]
        | bool b1 => simp [CreateTerminal, h2, hd, hv]
        | null => simp [CreateTerminal, h2, hd, hv]
  · intro h obj s hd hn
    have h2 : ¬ (resp.statusCode ≠ 200 ∧ resp.statusCode ≠ 201) := by
      rcases h with h | h <;> simp [h]
    simp [CreateTerminal, h2, hd, hn]

/-- C6 witness: HTTP 500 yields the error carrying status and body; a
200 response with a string `name` field sets the terminal ID; a 200
response without one errors. -/
theorem c6_create_terminal_witness :
    CreateTerminal (NewJupyterClient "http://h" "")
        { statusCode := 500, status := "500 Internal Server Error",
          body := "boom", decoded := none } =
      (CreateResult.httpErr "500 Internal Server Error" "boom",
       NewJupyterClient "http://h" "")
    ∧ CreateTerminal (NewJupyterClient "http://h" "")
        { statusCode := 200, status := "200 OK", body := "",
          decoded := some [("name", JValue.str "1")] } =
      (CreateResult.ok, { (NewJupyterClient "http://h" "") with terminalID := "1" })
    ∧ CreateTerminal (NewJupyterClient "http://h" "")
        { statusCode := 201, status := "201 Created", body := "",
          decoded := some [("id", JValue.str "1")] } =
      (CreateResult.missingName, NewJupyterClient "http://h" "") :=
  ⟨(c6_create_terminal (NewJupyterClient "http://h" "")
      { statusCode := 500, status := "500 Internal Server Error",
        body := "boom", decoded := none }).1 (by decide),
   (c6_create_terminal (NewJupyterClient "http://h" "")
      { statusCode := 200, status := "200 OK", body := "",
        decoded := some [("name", JValue.str "1")] }).2.2.2 (by decide)
      [("name", JValue.str "1")] "1" (by decide) (by decide),
   (c6_create_terminal (NewJupyterClient "http://h" "")
      { statusCode := 201, status := "201 Created", body := "",
        decoded := some [("id", JValue.str "1")] }).2.2.1 (by decide)
      [("id", JValue.str "1")] (by decide) (fun s => by simp [lookupField])⟩

/-- C7: the connection target rewrites scheme `https` to `wss` and any
other scheme to `ws`, keeps the authority, sets the path to
`/terminals/websocket/{terminalID}`, and sets the `token` query
parameter exactly when the token is non-empty (an empty token leaves
the query untouched). -/
theorem c7_connect_url (u : URL) (tid tok : String) :
    (ConnectURL u tid tok).scheme = (if u.scheme = "https" then "wss" else "ws")
    ∧ (ConnectURL u tid tok).host = u.host
    ∧ (ConnectURL u tid tok).path = "/terminals/websocket/" ++ tid
    ∧ (tok ≠ "" →
        (ConnectURL u tid tok).query = setQueryParam u.query "token" tok
        ∧ ("token", tok) ∈ (ConnectURL u tid tok).query)
    ∧ (tok = "" → (ConnectURL u tid tok).query = u.query) := by
  by_cases h : tok = "" <;>
    simp [ConnectURL, setQueryParam, h]

/-- C7 witness: a secure endpoint with a credential gets scheme `wss`,
the fixed path, and a `token` parameter; a plain endpoint with an empty
credential gets scheme `ws` and its query left untouched. -/
theorem c7_connect_url_witness :
    (ConnectURL (URL.mk "https" "h:8888" "/" []) "t1" "sec").query =
      [("token", "sec")]
    ∧ (ConnectURL (URL.mk "http" "h" "" [("a", "b")]) "t2" "").query =
      [("a", "b")] :=
  ⟨((c7_connect_url (URL.mk "https" "h:8888" "/" []) "t1" "sec").2.2.2.1
      (by decide)).1,
   (c7_connect_url (URL.mk "http" "h" "" [("a", "b")]) "t2" "").2.2.2.2 rfl⟩

/-- C8: with a non-empty `-term` flag, `CreateTerminal` is not invoked
and the supplied identifier becomes the client's terminal ID. -/
theorem c8_attach_skips_provisioning (c : JupyterClient) (termID : String)
    (resp : HttpResponse) (h : termID ≠ "") :
    resolveTerminal c termID resp =
      (false, ResolveOut.proceed { c with terminalID := termID }) := by
  simp [resolveTerminal, h]

/-- C8 witness: attaching to terminal `"7"` performs no provisioning
call even when the (never-issued) provisioning response would have
failed. -/
theorem c8_attach_skips_provisioning_witness :
    resolveTerminal (NewJupyterClient "http://h" "tok") "7"
        { statusCode := 500, status := "500 Internal Server Error",
          body := "boom", decoded := none } =
      (false, ResolveOut.proceed
        { (NewJupyterClient "http://h" "tok") with terminalID := "7" }) :=
  c8_attach_skips_provisioning (NewJupyterClient "http://h" "tok") "7"
    { statusCode := 500, status := "500 Internal Server Error",
      body := "boom", decoded := none } (by decide)

/-- C9: in single-shot mode (non-empty positional arguments) the input
phase issues exactly one send, whose wire message is the arguments
joined with single spaces (with the trailing newline added), and reads
no line of local standard input; in particular `["git", "status"]`
yields the transmitted `["stdin", "git status\n"]`. -/
theorem c9_single_shot (args stdin : List String) (oracle : Nat → Bool)
    (h : args ≠ []) :
    sendPayloads (inputPhase args stdin oracle).1 =
      [wireOf (String.intercalate " " args)]
    ∧ Ev.readLine ∉ (inputPhase args stdin oracle).1
    ∧ wireOf (String.intercalate " " ["git", "status"]) =
      [JValue.str "stdin", JValue.str "git status\n"] := by
  refine ⟨?_, ?_, by decide⟩ <;>
    by_cases ho : oracle 0 <;>
      simp [inputPhase, h, ho, sendPayloads]

/-- C9 witness: with arguments `["git", "status"]`, a non-empty local
input stream, and failing writes, the input phase still sends exactly
the one joined command. -/
theorem c9_single_shot_witness :
    sendPayloads (inputPhase ["git", "status"] ["ls"] (fun _ => false)).1 =
      [wireOf (String.intercalate " " ["git", "status"])]
    ∧ wireOf (String.intercalate " " ["git", "status"]) =
      [JValue.str "stdin", JValue.str "git status\n"] :=
  ⟨(c9_single_shot ["git", "status"] ["ls"] (fun _ => false) (by decide)).1,
   (c9_single_shot ["git", "status"] ["ls"] (fun _ => false) (by decide)).2.2⟩

/-- C10: a freshly constructed client has an empty terminal ID and no
connection (and stores the given token); and whatever `CreateTerminal`
returns, it leaves `baseURL`, `token`, and `conn` unchanged — on
success only `terminalID` is modified. -/
theorem c10_create_frame (u t : String) (c : JupyterClient)
    (resp : HttpResponse) :
    (NewJupyterClient u t).terminalID = ""
    ∧ (NewJupyterClient u t).conn = none
    ∧ (NewJupyterClient u t).token = t
    ∧ ((CreateTerminal c resp).1 = CreateResult.ok →
        (CreateTerminal c resp).2.baseURL = c.baseURL
        ∧ (CreateTerminal c resp).2.token = c.token
        ∧ (CreateTerminal c resp).2.conn = c.conn) := by
  refine ⟨rfl, rfl, rfl, fun _ => ?_⟩
  unfold CreateTerminal
  repeat' split
  all_goals exact ⟨rfl, rfl, rfl⟩

/-- C10 witness: a successful provisioning of a concrete fresh client
changes neither the endpoint, nor the token, nor the (absent)
connection. -/
theorem c10_create_frame_witness :
    (NewJupyterClient "http://h/" "tok").terminalID = ""
    ∧ (NewJupyterClient "http://h/" "tok").conn = none
    ∧ (CreateTerminal (NewJupyterClient "http://h/" "tok")
        { statusCode := 201, status := "201 Created", body := "",
          decoded := some [("name", JValue.str "1")] }).2.baseURL =
      (NewJupyterClient "http://h/" "tok").baseURL
    ∧ (CreateTerminal (NewJupyterClient "http://h/" "tok")
        { statusCode := 201, status := "201 Created", body := "",
          decoded := some [("name", JValue.str "1")] }).2.token =
      (NewJupyterClient "http://h/" "tok").token
    ∧ (CreateTerminal (NewJupyterClient "http://h/" "tok")
        { statusCode := 201, status := "201 Created", body := "",
          decoded := some [("name", JValue.str "1")] }).2.conn =
      (NewJupyterClient "http://h/" "tok").conn :=
  ⟨(c10_create_frame "http://h/" "tok" (NewJupyterClient "http://h/" "tok")
      { statusCode := 201, status := "201 Created", body := "",
        decoded := some [("name", JValue.str "1")] }).1,
   (c10_create_frame "http://h/" "tok" (NewJupyterClient "http://h/" "tok")
      { statusCode := 201, status := "201 Created", body := "",
        decoded := some [("name", JValue.str "1")] }).2.1,
   (c10_create_frame "http://h/" "tok" (NewJupyterClient "http://h/" "tok")
      { statusCode := 201, status := "201 Created", body := "",
        decoded := some [("name", JValue.str "1")] }).2.2.2 (by decide)⟩

/-- C1 counterexample: in single-shot mode with a failing write, a send
failure does occur in the input phase, yet the run performs no teardown
at all — `log.Fatalf` exits the process before the deferred `Close`,
so neither the exit command nor the connection close happens. -/
theorem c1_counterexample :
    Ev.send (wireOf "git status") false ∈
      mainBody ["git", "status"] [] (fun _ => false)
    ∧ Ev.close ∉ mainBody ["git", "status"] [] (fun _ => false)
    ∧ Ev.exitSend true ∉ mainBody ["git", "status"] [] (fun _ => false)
    ∧ Ev.exitSend false ∉ mainBody ["git", "status"] [] (fun _ => false)
    ∧ Ev.fatalExit ∈ mainBody ["git", "status"] [] (fun _ => false) := by
  decide

/-- C1 amended: in interactive mode the trace always ends with
teardown (exit send then close), and a failed send ends the input loop
immediately; but in single-shot mode a failed send terminates the
process via `log.Fatalf` and no teardown runs. -/
theorem c1_amended (args stdin : List String) (line : String)
    (rest : List String) (oracle : Nat → Bool) (idx : Nat)
    (hargs : args ≠ []) (hfail : oracle 0 = false)
    (hline : line ≠ "exit") (hidx : oracle idx = false) :
    mainBody [] stdin oracle =
      (InteractiveShell oracle stdin 0).1 ++
        teardownEvs oracle (InteractiveShell oracle stdin 0).2
    ∧ InteractiveShell oracle (line :: rest) idx =
      ([Ev.readLine, Ev.send (wireOf line) false], idx + 1)
    ∧ mainBody args stdin oracle =
      [Ev.send (wireOf (String.intercalate " " args)) false, Ev.fatalExit] := by
  refine ⟨?_, ?_, ?_⟩
  · simp [mainBody, inputPhase]
  · simp [InteractiveShell, hline, hidx]
  · simp [mainBody, inputPhase, hargs, hfail]

/-- C1 amended witness: with every write failing, an interactive run
on one line of input still tears down, the failed send ends the loop,
and the single-shot run exits fatally with no teardown. -/
theorem c1_amended_witness :
    mainBody [] ["ls"] (fun _ => false) =
      (InteractiveShell (fun _ => false) ["ls"] 0).1 ++
        teardownEvs (fun _ => false) (InteractiveShell (fun _ => false) ["ls"] 0).2
    ∧ InteractiveShell (fun _ => false) ["ls"] 0 =
      ([Ev.readLine, Ev.send (wireOf "ls") false], 0 + 1)
    ∧ mainBody ["git", "status"] ["ls"] (fun _ => false) =
      [Ev.send (wireOf (String.intercalate " " ["git", "status"])) false,
       Ev.fatalExit] :=
  c1_amended ["git", "status"] ["ls"] "ls" [] (fun _ => false) 0
    (by decide) rfl (by decide) rfl

end JupyterShell
